import Mathlib

/-!
Verification development for the notebook-to-Markdown converter
(`src/converter.rs` of mdbook-jupyter).

The converter is embedded shallowly:
* JSON values (`serde_json::Value`) become the inductive `Json`; JSON numbers
  are modelled as integers (the notebook payloads the converter touches are
  strings, arrays and objects, so float formatting is out of scope), and
  `serde_json::Map` becomes an association list queried by first match.
* Filesystem effects are made explicit: each processing function returns,
  besides its `Except` result, the list of asset-file writes it performed
  (filename relative to the assets directory, content bytes).  Writes
  performed before a later failure are kept, as they are on a real
  filesystem.  Directory creation becomes a boolean effect flag.
* The assets directory path is represented by the one piece of it the
  renderer consults, `assets_out.file_name()`: an `Option String`.
* The capacity pre-estimation (`estimate_cell_len`) is a performance
  optimisation with no observable effect on the result and is not modelled.
-/

/-- JSON values, mirroring `serde_json::Value` with numbers as integers. -/
inductive Json where
  | null : Json
  | bool (b : Bool) : Json
  | num (n : Int) : Json
  | str (s : String) : Json
  | arr (elems : List Json) : Json
  | obj (fields : List (String × Json)) : Json
deriving Repr

/-- Lookup in a JSON object map (`serde_json::Map::get`). -/
def jsonMapGet (data : List (String × Json)) (k : String) : Option Json :=
  List.lookup k data

/-- Lower-case hexadecimal digit, as used by serde_json's string escaper. -/
def hexDigit (n : Nat) : Char :=
  if n < 10 then Char.ofNat (48 + n) else Char.ofNat (87 + n)

/-- Escape one character the way serde_json does when serializing a JSON
string: `"` and `\` are backslash-escaped, control characters below 0x20
become `\b`, `\f`, `\n`, `\r`, `\t` or `\u00xx`, everything else is kept. -/
def escapeChar (c : Char) : String :=
  if c = '"' then "\\\""
  else if c = '\\' then "\\\\"
  else if c.toNat < 32 then
    if c = '\n' then "\\n"
    else if c = '\t' then "\\t"
    else if c = '\r' then "\\r"
    else if c.toNat = 8 then "\\b"
    else if c.toNat = 12 then "\\f"
    else "\\u00" ++ String.singleton (hexDigit (c.toNat / 16))
            ++ String.singleton (hexDigit (c.toNat % 16))
  else String.singleton c

/-- Escape a whole string for JSON serialization. -/
def escapeString (s : String) : String :=
  String.join (s.data.map escapeChar)

mutual

/-- Compact JSON serialization, mirroring `serde_json::to_string`. -/
def jsonCompact : Json → String
  | Json.null => "null"
  | Json.bool b => if b then "true" else "false"
  | Json.num n => toString n
  | Json.str s => "\"" ++ escapeString s ++ "\""
  | Json.arr vs => "[" ++ jsonCompactArr vs ++ "]"
  | Json.obj fs => "\x7b" ++ jsonCompactObj fs ++ "\x7d"

/-- Comma-separated compact serialization of array elements. -/
def jsonCompactArr : List Json → String
  | [] => ""
  | [v] => jsonCompact v
  | v :: vs => jsonCompact v ++ "," ++ jsonCompactArr vs

/-- Comma-separated compact serialization of object fields. -/
def jsonCompactObj : List (String × Json) → String
  | [] => ""
  | [(k, v)] => "\"" ++ escapeString k ++ "\":" ++ jsonCompact v
  | (k, v) :: fs =>
      "\"" ++ escapeString k ++ "\":" ++ jsonCompact v ++ "," ++ jsonCompactObj fs

end

/-- Value of one base64 alphabet character (standard alphabet `A-Za-z0-9+/`),
`none` for anything else, including the padding character. -/
def b64Val (c : Char) : Option Nat :=
  if 'A' ≤ c ∧ c ≤ 'Z' then some (c.toNat - 65)
  else if 'a' ≤ c ∧ c ≤ 'z' then some (c.toNat - 97 + 26)
  else if '0' ≤ c ∧ c ≤ '9' then some (c.toNat - 48 + 52)
  else if c = '+' then some 62
  else if c = '/' then some 63
  else none

/-- Decode base64 character groups of four, mirroring the strict behaviour of
the `base64` crate's `STANDARD` engine: canonical padding is required, the
input length must be a multiple of four, and non-zero trailing bits are
rejected. Bytes are modelled as `Nat` below 256. -/
def b64DecodeGroups : List Char → Option (List Nat)
  | [] => some []
  | a :: b :: c :: d :: rest =>
      match b64Val a, b64Val b with
      | some va, some vb =>
        if c = '=' ∧ d = '=' ∧ rest = [] then
          if vb % 16 = 0 then some [va * 4 + vb / 16] else none
        else
          match b64Val c with
          | some vc =>
            if d = '=' ∧ rest = [] then
              if vc % 4 = 0 then some [va * 4 + vb / 16, vb % 16 * 16 + vc / 4]
              else none
            else
              match b64Val d with
              | some vd =>
                  (b64DecodeGroups rest).map fun tail =>
                    (va * 4 + vb / 16) :: (vb % 16 * 16 + vc / 4)
                      :: (vc % 4 * 64 + vd) :: tail
              | none => none
          | none => none
      | _, _ => none
  | _ => none

/-- Base64 decoding of a string (`STANDARD.decode` in the source). -/
def base64Decode (s : String) : Option (List Nat) :=
  b64DecodeGroups s.data

/-- Character of a 6-bit value in the standard base64 alphabet. -/
def b64Char (n : Nat) : Char :=
  if n < 26 then Char.ofNat (65 + n)
  else if n < 52 then Char.ofNat (97 + n - 26)
  else if n < 62 then Char.ofNat (48 + n - 52)
  else if n = 62 then '+'
  else '/'

/-- Base64-encode a byte list, with `=` padding. -/
def b64EncodeList : List Nat → List Char
  | [] => []
  | [a] => [b64Char (a / 4), b64Char (a % 4 * 16), '=', '=']
  | [a, b] => [b64Char (a / 4), b64Char (a % 4 * 16 + b / 16),
               b64Char (b % 16 * 4), '=']
  | a :: b :: c :: rest =>
      b64Char (a / 4) :: b64Char (a % 4 * 16 + b / 16)
        :: b64Char (b % 16 * 4 + c / 64) :: b64Char (c % 64)
        :: b64EncodeList rest

/-- Base64 encoding of a byte list (`STANDARD.encode` in the source). -/
def base64Encode (bs : List Nat) : String :=
  String.mk (b64EncodeList bs)

/-- UTF-8 bytes of a string (`str::as_bytes` in the source). -/
def strBytes (s : String) : List Nat :=
  s.toUTF8.toList.map (fun b => b.toNat)

/-- MultilineString captures the fact that many fields in nbformat may be a
single string or an array of strings. -/
inductive MultilineString where
  | single (s : String) : MultilineString
  | multi (v : List String) : MultilineString
deriving Repr, DecidableEq

/-- Collapse a `MultilineString` into one owned string (`into_string`):
identity for the single-string case, separator-free concatenation for the
array case (`v.join("")`). -/
def MultilineString.into_string : MultilineString → String
  | MultilineString.single s => s
  | MultilineString.multi v => String.join v

/-- Outputs attached to a code cell, mirroring the `Output` enum. -/
inductive Output where
  | stream (name : Option String) (text : MultilineString) : Output
  | displayData (data : List (String × Json)) (metadata : Option Json) : Output
  | executeResult (data : List (String × Json)) (metadata : Option Json)
      (execution_count : Option Nat) : Output
  | error (ename : String) (evalue : String) (traceback : MultilineString) : Output
deriving Repr

/-- Notebook cells, mirroring the `Cell` enum. -/
inductive Cell where
  | markdown (source : MultilineString) (metadata : Option Json) : Cell
  | code (source : MultilineString) (outputs : List Output)
      (execution_count : Option Nat) (metadata : Option Json) : Cell
  | raw (source : MultilineString) (metadata : Option Json) : Cell
deriving Repr

/-- A parsed notebook: its ordered cells. -/
structure Notebook where
  cells : List Cell
deriving Repr

/-- Configuration options for notebook conversion. -/
structure ConvertOptions where
  embed_images : Bool
deriving Repr, DecidableEq

/-- Default options: images are externalized, not embedded. -/
def ConvertOptions.default : ConvertOptions := ⟨false⟩

/-- Errors of one conversion call: a parse failure of the notebook JSON, or a
base64 decode failure while externalizing an image.  (Filesystem writes are
modelled as always succeeding.) -/
inductive ConvError where
  | parseError : ConvError
  | decodeError : ConvError
deriving Repr, DecidableEq

/-- One asset-file write: filename relative to the assets directory, and the
bytes written. -/
abbrev Write := String × List Nat

mutual

/-- Best-effort extraction of text from a JSON value (`value_to_text`). -/
def value_to_text : Json → Option String
  | Json.str s => some s
  | Json.arr l => some (value_list_text l)
  | Json.num n => some (toString n)
  | Json.obj o => some (jsonCompact (Json.obj o))
  | Json.bool b => some (if b then "true" else "false")
  | Json.null => none

/-- The loop in the array branch of `value_to_text`: resolved element texts
are pushed onto an accumulator in order; unresolvable elements contribute
nothing. -/
def value_list_text : List Json → String
  | [] => ""
  | v :: vs =>
      (match value_to_text v with
       | some s => s
       | none => "") ++ value_list_text vs

end

/-- Zero-padded three-digit rendering of the asset counter
(the format string used is output_ followed by the counter padded to
width 3). -/
def pad3 (n : Nat) : String :=
  if n < 10 then "00" ++ toString n
  else if n < 100 then "0" ++ toString n
  else toString n

/-- Render one output (`process_outputs` data branch body): the shared body
of the `DisplayData` and `ExecuteResult` arms of `process_output`, which the
source merges with an or-pattern.  Returns the grown Markdown buffer and the
counter on success, plus the writes performed. -/
def processData (md : String) (data : List (String × Json))
    (assetsDirName : Option String) (counter : Nat) (options : ConvertOptions) :
    Except ConvError (String × Nat) × List Write :=
  match (jsonMapGet data "image/png").bind value_to_text with
  | some img_b64 =>
    if options.embed_images then
      (Except.ok (md ++ "![output image](data:image/png;base64," ++ img_b64 ++ ")\n\n",
        counter), [])
    else
      match base64Decode img_b64 with
      | none => (Except.error ConvError.decodeError, [])
      | some decoded =>
        let filename := "output_" ++ pad3 counter ++ ".png"
        match assetsDirName with
        | some dirname =>
            (Except.ok (md ++ "![output image](" ++ dirname ++ "/" ++ filename ++ ")\n\n",
              counter + 1), [(filename, decoded)])
        | none =>
            (Except.ok (md ++ "![output image](" ++ filename ++ ")\n\n",
              counter + 1), [(filename, decoded)])
  | none =>
  match (jsonMapGet data "image/jpeg").bind value_to_text with
  | some img_b64 =>
    if options.embed_images then
      (Except.ok (md ++ "![output image](data:image/jpeg;base64," ++ img_b64 ++ ")\n\n",
        counter), [])
    else
      match base64Decode img_b64 with
      | none => (Except.error ConvError.decodeError, [])
      | some decoded =>
        let filename := "output_" ++ pad3 counter ++ ".jpg"
        match assetsDirName with
        | some dirname =>
            (Except.ok (md ++ "![output image](" ++ dirname ++ "/" ++ filename ++ ")\n\n",
              counter + 1), [(filename, decoded)])
        | none =>
            (Except.ok (md ++ "![output image](" ++ filename ++ ")\n\n",
              counter + 1), [(filename, decoded)])
  | none =>
  match (jsonMapGet data "image/svg+xml").bind value_to_text with
  | some svg =>
    if options.embed_images then
      (Except.ok (md ++ "![output svg](data:image/svg+xml;base64,"
        ++ base64Encode (strBytes svg) ++ ")\n\n", counter), [])
    else
      let filename := "output_" ++ pad3 counter ++ ".svg"
      match assetsDirName with
      | some dirname =>
          (Except.ok (md ++ "![output svg](" ++ dirname ++ "/" ++ filename ++ ")\n\n",
            counter + 1), [(filename, strBytes svg)])
      | none =>
          (Except.ok (md ++ "![output svg](" ++ filename ++ ")\n\n",
            counter + 1), [(filename, strBytes svg)])
  | none =>
  match (jsonMapGet data "text/markdown").bind value_to_text with
  | some mdtext => (Except.ok (md ++ mdtext ++ "\n\n", counter), [])
  | none =>
  match (jsonMapGet data "text/plain").bind value_to_text with
  | some text => (Except.ok (md ++ "```\n" ++ text ++ "\n```\n\n", counter), [])
  | none =>
  match (jsonMapGet data "text/html").bind value_to_text with
  | some html => (Except.ok (md ++ "```html\n" ++ html ++ "\n```\n\n", counter), [])
  | none => (Except.ok (md, counter), [])

/-- Render one output (`process_output`). -/
def process_output (md : String) (output : Output) (assetsDirName : Option String)
    (counter : Nat) (options : ConvertOptions) :
    Except ConvError (String × Nat) × List Write :=
  match output with
  | Output.stream _ text =>
      (Except.ok (md ++ "```\n" ++ text.into_string ++ "\n```\n\n", counter), [])
  | Output.displayData data _ => processData md data assetsDirName counter options
  | Output.executeResult data _ _ => processData md data assetsDirName counter options
  | Output.error ename evalue traceback =>
      (Except.ok (md ++ "```error\n" ++ ename ++ ": " ++ evalue ++ "\n"
        ++ traceback.into_string ++ "\n```\n\n", counter), [])

/-- Render the outputs of one code cell in order, accumulating writes; a
failure aborts the remaining outputs but keeps the writes already made. -/
def processOutputs (md : String) (outputs : List Output)
    (assetsDirName : Option String) (counter : Nat) (options : ConvertOptions) :
    Except ConvError (String × Nat) × List Write :=
  match outputs with
  | [] => (Except.ok (md, counter), [])
  | o :: rest =>
    match process_output md o assetsDirName counter options with
    | (Except.ok (md1, c1), ws) =>
      match processOutputs md1 rest assetsDirName c1 options with
      | (r, ws1) => (r, ws ++ ws1)
    | (Except.error e, ws) => (Except.error e, ws)

/-- Render one cell (`process_cell`). -/
def process_cell (md : String) (cell : Cell) (assetsDirName : Option String)
    (counter : Nat) (options : ConvertOptions) :
    Except ConvError (String × Nat) × List Write :=
  match cell with
  | Cell.markdown source _ =>
      (Except.ok (md ++ source.into_string ++ "\n\n", counter), [])
  | Cell.code source outputs _ _ =>
      processOutputs (md ++ "```python\n" ++ source.into_string ++ "\n```\n\n")
        outputs assetsDirName counter options
  | Cell.raw source _ =>
      (Except.ok (md ++ source.into_string ++ "\n\n", counter), [])

/-- Render all cells of a notebook in order. -/
def processCells (md : String) (cells : List Cell) (assetsDirName : Option String)
    (counter : Nat) (options : ConvertOptions) :
    Except ConvError (String × Nat) × List Write :=
  match cells with
  | [] => (Except.ok (md, counter), [])
  | c :: rest =>
    match process_cell md c assetsDirName counter options with
    | (Except.ok (md1, c1), ws) =>
      match processCells md1 rest assetsDirName c1 options with
      | (r, ws1) => (r, ws ++ ws1)
    | (Except.error e, ws) => (Except.error e, ws)

/-- Convert an already-parsed notebook: create the assets directory when
images are externalized, then render all cells starting from an empty buffer
and asset counter 0.  The result is the Markdown string (or error), the
directory-creation effect flag, and the asset writes performed. -/
def convertParsed (nb : Notebook) (assetsDirName : Option String)
    (options : ConvertOptions) :
    Except ConvError String × Bool × List Write :=
  let dirCreated := !options.embed_images
  match processCells "" nb.cells assetsDirName 0 options with
  | (Except.ok (md, _), ws) => (Except.ok md, dirCreated, ws)
  | (Except.error e, ws) => (Except.error e, dirCreated, ws)

/-- Extract a JSON string (helper for serde-style deserialization). -/
def jsonAsStr : Json → Option String
  | Json.str s => some s
  | _ => none

/-- Deserialize a `MultilineString` (serde untagged: first a plain string,
else an array all of whose elements are strings). -/
def parseMultiline : Json → Option MultilineString
  | Json.str s => some (MultilineString.single s)
  | Json.arr vs => (vs.mapM jsonAsStr).map MultilineString.multi
  | _ => none

/-- Deserialize an `Option<Value>` field from its (possibly absent) JSON
value: absent or `null` becomes `none`, anything else is kept.  Never fails. -/
def parseOptValue : Option Json → Option Json
  | some Json.null => none
  | some v => some v
  | none => none

/-- Deserialize an `Option<String>` field: absent or `null` is `none`, a
string is kept, any other value is a deserialization error. -/
def parseOptString : Option Json → Option (Option String)
  | none => some none
  | some Json.null => some none
  | some (Json.str s) => some (some s)
  | some _ => none

/-- Deserialize an `Option<u32>` field: absent or `null` is `none`, an
integer in `u32` range is kept, anything else is a deserialization error. -/
def parseOptU32 : Option Json → Option (Option Nat)
  | none => some none
  | some Json.null => some none
  | some (Json.num n) =>
      if 0 ≤ n ∧ n < 4294967296 then some (some n.toNat) else none
  | some _ => none

/-- Deserialize a `Map<String, Value>` field (must be a JSON object). -/
def jsonAsMap : Json → Option (List (String × Json))
  | Json.obj fields => some fields
  | _ => none

/-- Deserialize one `Output`, internally tagged by `output_type`; an
unrecognized or missing tag, or a missing/ill-typed required field, is a
deserialization error.  Unknown extra fields are ignored. -/
def parseOutput (j : Json) : Option Output :=
  match j with
  | Json.obj fields =>
    match jsonMapGet fields "output_type" with
    | some (Json.str "stream") => do
        let name ← parseOptString (jsonMapGet fields "name")
        let textJ ← jsonMapGet fields "text"
        let text ← parseMultiline textJ
        some (Output.stream name text)
    | some (Json.str "display_data") => do
        let dataJ ← jsonMapGet fields "data"
        let data ← jsonAsMap dataJ
        some (Output.displayData data (parseOptValue (jsonMapGet fields "metadata")))
    | some (Json.str "execute_result") => do
        let dataJ ← jsonMapGet fields "data"
        let data ← jsonAsMap dataJ
        let ec ← parseOptU32 (jsonMapGet fields "execution_count")
        some (Output.executeResult data (parseOptValue (jsonMapGet fields "metadata")) ec)
    | some (Json.str "error") => do
        let enameJ ← jsonMapGet fields "ename"
        let ename ← jsonAsStr enameJ
        let evalueJ ← jsonMapGet fields "evalue"
        let evalue ← jsonAsStr evalueJ
        let tbJ ← jsonMapGet fields "traceback"
        let tb ← parseMultiline tbJ
        some (Output.error ename evalue tb)
    | _ => none
  | _ => none

/-- Deserialize one `Cell`, internally tagged by `cell_type`; an unrecognized
or missing tag, or a missing/ill-typed required field, is a deserialization
error.  Unknown extra fields are ignored. -/
def parseCell (j : Json) : Option Cell :=
  match j with
  | Json.obj fields =>
    match jsonMapGet fields "cell_type" with
    | some (Json.str "markdown") => do
        let srcJ ← jsonMapGet fields "source"
        let src ← parseMultiline srcJ
        some (Cell.markdown src (parseOptValue (jsonMapGet fields "metadata")))
    | some (Json.str "code") => do
        let srcJ ← jsonMapGet fields "source"
        let src ← parseMultiline srcJ
        let outsJ ← jsonMapGet fields "outputs"
        let outsArr ← match outsJ with
          | Json.arr vs => some vs
          | _ => none
        let outs ← outsArr.mapM parseOutput
        let ec ← parseOptU32 (jsonMapGet fields "execution_count")
        some (Cell.code src outs ec (parseOptValue (jsonMapGet fields "metadata")))
    | some (Json.str "raw") => do
        let srcJ ← jsonMapGet fields "source"
        let src ← parseMultiline srcJ
        some (Cell.raw src (parseOptValue (jsonMapGet fields "metadata")))
    | _ => none
  | _ => none

/-- Deserialize a `Notebook`: the top level must be a JSON object with a
`cells` array of well-formed cells; other top-level fields (metadata,
nbformat, ...) are ignored. -/
def parseNotebook (j : Json) : Option Notebook :=
  match j with
  | Json.obj fields =>
    match jsonMapGet fields "cells" with
    | some (Json.arr cellsJ) => (cellsJ.mapM parseCell).map Notebook.mk
    | _ => none
  | _ => none

/-- Convert a notebook to Markdown (`convert_notebook_to_md_with_options`).
The raw-bytes input is modelled at the JSON level: `none` stands for bytes
that are not valid JSON.  Parsing happens first; only when it succeeds (and
images are externalized) is the assets directory created, so a parse failure
performs no filesystem effects at all. -/
def convert_notebook_to_md_with_options (input : Option Json)
    (assetsDirName : Option String) (options : ConvertOptions) :
    Except ConvError String × Bool × List Write :=
  match input with
  | none => (Except.error ConvError.parseError, false, [])
  | some j =>
    match parseNotebook j with
    | none => (Except.error ConvError.parseError, false, [])
    | some nb => convertParsed nb assetsDirName options

/-- Convert with default options (`convert_notebook_to_md`). -/
def convert_notebook_to_md (input : Option Json) (assetsDirName : Option String) :
    Except ConvError String × Bool × List Write :=
  convert_notebook_to_md_with_options input assetsDirName ConvertOptions.default

/-- Folding string concatenation from an arbitrary accumulator factors the
accumulator out front. -/
theorem foldl_append_factor (l : List String) (a : String) :
    l.foldl (fun r s => r ++ s) a = a ++ l.foldl (fun r s => r ++ s) "" := by
  induction l generalizing a with
  | nil => simp [List.foldl]
  | cons x xs ih =>
    simp only [List.foldl]
    rw [ih (a ++ x), ih ("" ++ x), String.empty_append, String.append_assoc]

/-- Unfolding lemma for `String.join` on a cons cell. -/
theorem string_join_cons (s : String) (l : List String) :
    String.join (s :: l) = s ++ String.join l := by
  simp only [String.join, List.foldl]
  rw [foldl_append_factor l ("" ++ s), String.empty_append]

/-- The array loop of `value_to_text` concatenates, in order and with no
separator, the resolved texts of the elements, skipping unresolvable ones. -/
theorem value_list_text_eq (l : List Json) :
    value_list_text l = String.join (l.filterMap value_to_text) := by
  induction l with
  | nil => rfl
  | cons v vs ih =>
    simp only [value_list_text]
    cases h : value_to_text v with
    | none => simp [List.filterMap_cons, h, ih]
    | some s => simp [List.filterMap_cons, h, ih, string_join_cons]

/-- C5: the MIME payload resolver returns the string itself for a string, the
decimal text for a number, "true"/"false" for a boolean, the separator-free
in-order concatenation of the resolved element texts (nulls skipped) for an
array, the compact JSON re-serialization for an object, and nothing for
null. -/
theorem value_to_text_cases :
    (∀ s : String, value_to_text (Json.str s) = some s) ∧
    (∀ n : Int, value_to_text (Json.num n) = some (toString n)) ∧
    (∀ b : Bool, value_to_text (Json.bool b) = some (if b then "true" else "false")) ∧
    (∀ l : List Json,
      value_to_text (Json.arr l) = some (String.join (l.filterMap value_to_text))) ∧
    (∀ fs : List (String × Json),
      value_to_text (Json.obj fs) = some (jsonCompact (Json.obj fs))) ∧
    value_to_text Json.null = none := by
  refine ⟨fun s => rfl, fun n => rfl, fun b => rfl, fun l => ?_, fun fs => rfl, rfl⟩
  rw [show value_to_text (Json.arr l) = some (value_list_text l) from rfl,
    value_list_text_eq]

/-- C9: an Error output renders as a fenced code block tagged `error` whose
first line is `<ename>: <evalue>`, followed by the normalized traceback; in
particular ename "ValueError", evalue "bad input", traceback "line1\nline2"
renders as stated in the spec. -/
theorem error_output_rendering :
    (∀ (md ename evalue : String) (tb : MultilineString) (adn : Option String)
        (c : Nat) (opts : ConvertOptions),
      process_output md (Output.error ename evalue tb) adn c opts =
        (Except.ok (md ++ "```error\n" ++ ename ++ ": " ++ evalue ++ "\n"
          ++ tb.into_string ++ "\n```\n\n", c), [])) ∧
    (∀ (adn : Option String) (c : Nat) (opts : ConvertOptions),
      process_output "" (Output.error "ValueError" "bad input"
          (MultilineString.single "line1\nline2")) adn c opts =
        (Except.ok ("```error\nValueError: bad input\nline1\nline2\n```\n\n", c), [])) := by
  exact ⟨fun _ _ _ _ _ _ _ => rfl, fun _ _ _ => rfl⟩

/-- C8: with embed_images=true a PNG or JPEG payload is passed through
verbatim into a `data:<mime>;base64,<payload>` URI (no decode/re-encode, even
for payloads that are not valid base64), while an SVG payload is treated as
literal markup and base64-encoded into the data URI. -/
theorem embed_payload_passthrough :
    (∀ (md p : String) (m : Option Json) (adn : Option String) (c : Nat),
      process_output md (Output.displayData [("image/png", Json.str p)] m) adn c ⟨true⟩ =
        (Except.ok (md ++ "![output image](data:image/png;base64," ++ p ++ ")\n\n", c), [])) ∧
    (∀ (md p : String) (m : Option Json) (adn : Option String) (c : Nat),
      process_output md (Output.displayData [("image/jpeg", Json.str p)] m) adn c ⟨true⟩ =
        (Except.ok (md ++ "![output image](data:image/jpeg;base64," ++ p ++ ")\n\n", c), [])) ∧
    (∀ (md p : String) (m : Option Json) (adn : Option String) (c : Nat),
      process_output md (Output.displayData [("image/svg+xml", Json.str p)] m) adn c ⟨true⟩ =
        (Except.ok (md ++ "![output svg](data:image/svg+xml;base64,"
          ++ base64Encode (strBytes p) ++ ")\n\n", c), [])) := by
  exact ⟨fun _ _ _ _ _ => rfl, fun _ _ _ _ _ => rfl, fun _ _ _ _ _ => rfl⟩

/-- C10: the resolver returns `some` for every array, even one whose elements
are all null (then the empty string); hence a higher-priority image/png key
holding an all-null array wins the priority selection with empty text, and
with embed_images=false the empty string base64-decodes to zero bytes and an
empty asset file is written, instead of falling through to text/plain. -/
theorem array_resolves_even_all_null :
    (∀ l : List Json, (value_to_text (Json.arr l)).isSome = true) ∧
    value_to_text (Json.arr [Json.null]) = some "" ∧
    (∀ (md t : String) (m : Option Json) (d : String) (c : Nat),
      process_output md
          (Output.displayData
            [("image/png", Json.arr [Json.null]), ("text/plain", Json.str t)] m)
          (some d) c ⟨false⟩ =
        (Except.ok (md ++ "![output image](" ++ d ++ "/"
            ++ ("output_" ++ pad3 c ++ ".png") ++ ")\n\n", c + 1),
         [("output_" ++ pad3 c ++ ".png", [])])) := by
  exact ⟨fun l => rfl, rfl, fun _ _ _ _ _ => rfl⟩

/-- The fixed MIME priority order of the output renderer. -/
def mimeKeys : List String :=
  ["image/png", "image/jpeg", "image/svg+xml", "text/markdown", "text/plain", "text/html"]

/-- Modelled from the spec's words: the first key of `mimeKeys`, in priority
order, whose value the resolver turns into `some` text, together with that
text. -/
def resolveFirstMime (data : List (String × Json)) : Option (String × String) :=
  mimeKeys.findSome? fun k =>
    ((jsonMapGet data k).bind value_to_text).map fun s => (k, s)

/-- Modelled from the spec's words: the handler of a single winning MIME key
applied to its resolved payload; unlisted keys render nothing. -/
def renderMime (md : String) (key payload : String) (assetsDirName : Option String)
    (counter : Nat) (options : ConvertOptions) :
    Except ConvError (String × Nat) × List Write :=
  if key = "image/png" then
    if options.embed_images then
      (Except.ok (md ++ "![output image](data:image/png;base64," ++ payload ++ ")\n\n",
        counter), [])
    else
      match base64Decode payload with
      | none => (Except.error ConvError.decodeError, [])
      | some decoded =>
        let filename := "output_" ++ pad3 counter ++ ".png"
        match assetsDirName with
        | some dirname =>
            (Except.ok (md ++ "![output image](" ++ dirname ++ "/" ++ filename ++ ")\n\n",
              counter + 1), [(filename, decoded)])
        | none =>
            (Except.ok (md ++ "![output image](" ++ filename ++ ")\n\n",
              counter + 1), [(filename, decoded)])
  else if key = "image/jpeg" then
    if options.embed_images then
      (Except.ok (md ++ "![output image](data:image/jpeg;base64," ++ payload ++ ")\n\n",
        counter), [])
    else
      match base64Decode payload with
      | none => (Except.error ConvError.decodeError, [])
      | some decoded =>
        let filename := "output_" ++ pad3 counter ++ ".jpg"
        match assetsDirName with
        | some dirname =>
            (Except.ok (md ++ "![output image](" ++ dirname ++ "/" ++ filename ++ ")\n\n",
              counter + 1), [(filename, decoded)])
        | none =>
            (Except.ok (md ++ "![output image](" ++ filename ++ ")\n\n",
              counter + 1), [(filename, decoded)])
  else if key = "image/svg+xml" then
    if options.embed_images then
      (Except.ok (md ++ "![output svg](data:image/svg+xml;base64,"
        ++ base64Encode (strBytes payload) ++ ")\n\n", counter), [])
    else
      let filename := "output_" ++ pad3 counter ++ ".svg"
      match assetsDirName with
      | some dirname =>
          (Except.ok (md ++ "![output svg](" ++ dirname ++ "/" ++ filename ++ ")\n\n",
            counter + 1), [(filename, strBytes payload)])
      | none =>
          (Except.ok (md ++ "![output svg](" ++ filename ++ ")\n\n",
            counter + 1), [(filename, strBytes payload)])
  else if key = "text/markdown" then
    (Except.ok (md ++ payload ++ "\n\n", counter), [])
  else if key = "text/plain" then
    (Except.ok (md ++ "```\n" ++ payload ++ "\n```\n\n", counter), [])
  else if key = "text/html" then
    (Except.ok (md ++ "```html\n" ++ payload ++ "\n```\n\n", counter), [])
  else (Except.ok (md, counter), [])

/-- C1: a DisplayData or ExecuteResult output is rendered by consulting the
data mapping in the fixed priority order png, jpeg, svg, markdown, plain,
html; exactly the first key whose value resolves to `some` text is rendered
and all remaining keys are ignored; in particular an output with both
text/markdown and text/plain renders only the text/markdown value, verbatim
with no fence, followed by a blank line. -/
theorem display_data_priority :
    (∀ (md : String) (data : List (String × Json)) (m : Option Json)
        (adn : Option String) (c : Nat) (opts : ConvertOptions),
      process_output md (Output.displayData data m) adn c opts =
        match resolveFirstMime data with
        | none => (Except.ok (md, c), [])
        | some (k, s) => renderMime md k s adn c opts) ∧
    (∀ (md : String) (data : List (String × Json)) (m : Option Json)
        (ec : Option Nat) (adn : Option String) (c : Nat) (opts : ConvertOptions),
      process_output md (Output.executeResult data m ec) adn c opts =
        process_output md (Output.displayData data m) adn c opts) ∧
    (∀ (md t : String) (v : Json) (m : Option Json) (adn : Option String)
        (c : Nat) (opts : ConvertOptions),
      process_output md
          (Output.displayData [("text/markdown", Json.str t), ("text/plain", v)] m)
          adn c opts =
        (Except.ok (md ++ t ++ "\n\n", c), [])) := by
  refine ⟨fun md data m adn c opts => ?_, fun _ _ _ _ _ _ _ => rfl,
    fun _ _ _ _ _ _ _ => rfl⟩
  show processData md data adn c opts = _
  rw [processData, resolveFirstMime, mimeKeys]
  cases h1 : (jsonMapGet data "image/png").bind value_to_text with
  | some s => simp [h1, List.findSome?, renderMime]
  | none =>
  cases h2 : (jsonMapGet data "image/jpeg").bind value_to_text with
  | some s => simp [h1, h2, List.findSome?, renderMime]
  | none =>
  cases h3 : (jsonMapGet data "image/svg+xml").bind value_to_text with
  | some s => simp [h1, h2, h3, List.findSome?, renderMime]
  | none =>
  cases h4 : (jsonMapGet data "text/markdown").bind value_to_text with
  | some s => simp [h1, h2, h3, h4, List.findSome?, renderMime]
  | none =>
  cases h5 : (jsonMapGet data "text/plain").bind value_to_text with
  | some s => simp [h1, h2, h3, h4, h5, List.findSome?, renderMime]
  | none =>
  cases h6 : (jsonMapGet data "text/html").bind value_to_text with
  | some s => simp [h1, h2, h3, h4, h5, h6, List.findSome?, renderMime]
  | none => simp [h1, h2, h3, h4, h5, h6, List.findSome?]

/-- The normalized source text of a cell. -/
def cellSource : Cell → String
  | Cell.markdown source _ => source.into_string
  | Cell.code source _ _ _ => source.into_string
  | Cell.raw source _ => source.into_string

/-- Whether a cell is a Markdown or Raw cell (no outputs, no fencing). -/
def Cell.isTextual : Cell → Bool
  | Cell.markdown _ _ => true
  | Cell.raw _ _ => true
  | Cell.code _ _ _ _ => false

/-- Rendering a run of Markdown/Raw cells appends each cell's normalized
source followed by a blank line, in order, with no writes and an untouched
counter. -/
theorem processCells_textual (cells : List Cell) (md : String) (adn : Option String)
    (c : Nat) (opts : ConvertOptions)
    (h : ∀ cell ∈ cells, cell.isTextual = true) :
    processCells md cells adn c opts =
      (Except.ok (md ++ String.join (cells.map fun cell => cellSource cell ++ "\n\n"), c),
       []) := by
  induction cells generalizing md with
  | nil => simp [processCells, String.join]
  | cons cell rest ih =>
    have hc := h cell (by simp)
    have hrest : ∀ x ∈ rest, x.isTextual = true := fun x hx => h x (by simp [hx])
    cases cell with
    | markdown src meta =>
      simp only [processCells, process_cell, ih _ hrest, List.map_cons,
        string_join_cons, cellSource, List.append_nil]
      simp [String.append_assoc]
    | raw src meta =>
      simp only [processCells, process_cell, ih _ hrest, List.map_cons,
        string_join_cons, cellSource, List.append_nil]
      simp [String.append_assoc]
    | code src outs ec meta => simp [Cell.isTextual] at hc

/-- C2: for a notebook whose cells are all Markdown or Raw, conversion
returns the concatenation, in original order with no cell skipped, of each
cell's normalized source followed by a blank line (two newline characters),
with no asset writes. -/
theorem textual_notebook_concat (nb : Notebook) (adn : Option String)
    (opts : ConvertOptions) (h : ∀ cell ∈ nb.cells, cell.isTextual = true) :
    convertParsed nb adn opts =
      (Except.ok (String.join (nb.cells.map fun cell => cellSource cell ++ "\n\n")),
       !opts.embed_images, []) := by
  rw [convertParsed, processCells_textual nb.cells "" adn 0 opts h]
  rw [String.empty_append]

/-- Witness for C2 at a concrete two-cell notebook. -/
theorem textual_notebook_concat_witness :
    convertParsed
        ⟨[Cell.markdown (MultilineString.single "a") none,
          Cell.raw (MultilineString.multi ["b", "c"]) none]⟩
        (some "assets") ⟨false⟩ =
      (Except.ok "a\n\nbc\n\n", true, []) := by
  rw [textual_notebook_concat
    ⟨[Cell.markdown (MultilineString.single "a") none,
      Cell.raw (MultilineString.multi ["b", "c"]) none]⟩
    (some "assets") ⟨false⟩ (by decide)]
  rfl

/-- C3: converting a notebook with one Code cell holding a single image/png
DisplayData output, with embed_images=false, yields Markdown whose only image
reference names output_000.png, writes exactly one asset file of that name
whose bytes are the base64-decoded payload, and prefixes the reference with
the assets directory basename when one resolves, else uses the bare
filename. -/
theorem png_roundtrip (src : MultilineString) (payload : String) (bytes : List Nat)
    (m cm : Option Json) (ec : Option Nat) (d : String)
    (h : base64Decode payload = some bytes) :
    convertParsed
        ⟨[Cell.code src [Output.displayData [("image/png", Json.str payload)] m] ec cm]⟩
        (some d) ⟨false⟩ =
      (Except.ok ("```python\n" ++ src.into_string
          ++ "\n```\n\n![output image](" ++ d ++ "/output_000.png)\n\n"),
       true, [("output_000.png", bytes)]) ∧
    convertParsed
        ⟨[Cell.code src [Output.displayData [("image/png", Json.str payload)] m] ec cm]⟩
        none ⟨false⟩ =
      (Except.ok ("```python\n" ++ src.into_string
          ++ "\n```\n\n![output image](output_000.png)\n\n"),
       true, [("output_000.png", bytes)]) := by
  have key : (jsonMapGet [("image/png", Json.str payload)] "image/png").bind
      value_to_text = some payload := rfl
  constructor <;>
  · simp only [convertParsed, processCells, process_cell, processOutputs,
      process_output, processData, key, h, show pad3 0 = "000" from rfl]
    simp [String.append_assoc]

/-- Witness for C3 at the concrete payload "QQ==", which decodes to the
single byte 65. -/
theorem png_roundtrip_witness :
    convertParsed
        ⟨[Cell.code (MultilineString.single "x")
            [Output.displayData [("image/png", Json.str "QQ==")] none] none none]⟩
        (some "assets") ⟨false⟩ =
      (Except.ok "```python\nx\n```\n\n![output image](assets/output_000.png)\n\n",
       true, [("output_000.png", [65])]) := by
  rw [(png_roundtrip (MultilineString.single "x") "QQ==" [65] none none none
    "assets" rfl).1]
  rfl

/-- A notebook JSON object lacking the `cells` field. -/
def jsonNoCells : Json := Json.obj [("nbformat", Json.num 4)]

/-- A notebook JSON whose single cell has an unrecognized `cell_type`. -/
def jsonBadCellType : Json :=
  Json.obj [("cells", Json.arr
    [Json.obj [("cell_type", Json.str "heading"), ("source", Json.str "t")]])]

/-- A notebook JSON whose single code cell has an output with an
unrecognized `output_type`. -/
def jsonBadOutputType : Json :=
  Json.obj [("cells", Json.arr
    [Json.obj [("cell_type", Json.str "code"), ("source", Json.str "x"),
      ("outputs", Json.arr [Json.obj [("output_type", Json.str "widget_view")]])]])]

/-- C6: invalid JSON, a missing `cells` field, an unrecognized `cell_type`,
or an unrecognized `output_type` makes conversion fail with a single parse
error, returning no partial Markdown, writing no asset files and not
creating the assets directory. -/
theorem parse_failure_no_effects :
    (∀ (adn : Option String) (opts : ConvertOptions),
      convert_notebook_to_md_with_options none adn opts =
        (Except.error ConvError.parseError, false, [])) ∧
    (∀ (j : Json) (adn : Option String) (opts : ConvertOptions),
      parseNotebook j = none →
      convert_notebook_to_md_with_options (some j) adn opts =
        (Except.error ConvError.parseError, false, [])) ∧
    parseNotebook jsonNoCells = none ∧
    parseNotebook jsonBadCellType = none ∧
    parseNotebook jsonBadOutputType = none := by
  refine ⟨fun _ _ => rfl, fun j adn opts h => ?_, rfl, rfl, rfl⟩
  rw [convert_notebook_to_md_with_options, h]

/-- Witness for C6 at the cells-less notebook JSON. -/
theorem parse_failure_no_effects_witness :
    convert_notebook_to_md_with_options (some jsonNoCells) (some "assets") ⟨false⟩ =
      (Except.error ConvError.parseError, false, []) :=
  parse_failure_no_effects.2.1 jsonNoCells (some "assets") ⟨false⟩ rfl

/-- With embed_images=true, rendering one data bundle performs no writes,
returns the counter it was given, and produces Markdown that does not depend
on the counter. -/
theorem processData_embed (md : String) (data : List (String × Json))
    (adn : Option String) (c c2 : Nat) :
    processData md data adn c ⟨true⟩ =
      (Except.map (fun p => (p.1, c)) (processData md data adn c2 ⟨true⟩).1, []) := by
  rw [processData, processData]
  cases h1 : (jsonMapGet data "image/png").bind value_to_text with
  | some s => simp [Except.map]
  | none =>
  cases h2 : (jsonMapGet data "image/jpeg").bind value_to_text with
  | some s => simp [Except.map]
  | none =>
  cases h3 : (jsonMapGet data "image/svg+xml").bind value_to_text with
  | some s => simp [Except.map]
  | none =>
  cases h4 : (jsonMapGet data "text/markdown").bind value_to_text with
  | some s => simp [Except.map]
  | none =>
  cases h5 : (jsonMapGet data "text/plain").bind value_to_text with
  | some s => simp [Except.map]
  | none =>
  cases h6 : (jsonMapGet data "text/html").bind value_to_text with
  | some s => simp [Except.map]
  | none => simp [Except.map]

/-- With embed_images=true, rendering one output performs no writes, keeps
the counter, and its Markdown is counter-independent. -/
theorem process_output_embed (md : String) (o : Output) (adn : Option String)
    (c c2 : Nat) :
    process_output md o adn c ⟨true⟩ =
      (Except.map (fun p => (p.1, c)) (process_output md o adn c2 ⟨true⟩).1, []) := by
  cases o with
  | stream n t => rfl
  | displayData data m => exact processData_embed md data adn c c2
  | executeResult data m ec => exact processData_embed md data adn c c2
  | error a b tb => rfl

/-- With embed_images=true, rendering a list of outputs performs no writes,
keeps the counter, and its Markdown is counter-independent. -/
theorem processOutputs_embed (outputs : List Output) (md : String)
    (adn : Option String) (c c2 : Nat) :
    processOutputs md outputs adn c ⟨true⟩ =
      (Except.map (fun p => (p.1, c)) (processOutputs md outputs adn c2 ⟨true⟩).1, []) := by
  induction outputs generalizing md with
  | nil => rfl
  | cons o rest ih =>
    rw [processOutputs, processOutputs]
    rw [process_output_embed md o adn c c2, process_output_embed md o adn c2 c2]
    cases hr : (process_output md o adn c2 ⟨true⟩).1 with
    | error e => simp [Except.map]
    | ok p =>
      obtain ⟨md1, c1⟩ := p
      simp only [Except.map]
      rw [ih md1]
      cases hr2 : (processOutputs md1 rest adn c2 ⟨true⟩).1 with
      | error e => simp [Except.map]
      | ok q => simp [Except.map]

/-- With embed_images=true, rendering one cell performs no writes, keeps the
counter, and its Markdown is counter-independent. -/
theorem process_cell_embed (cell : Cell) (md : String) (adn : Option String)
    (c c2 : Nat) :
    process_cell md cell adn c ⟨true⟩ =
      (Except.map (fun p => (p.1, c)) (process_cell md cell adn c2 ⟨true⟩).1, []) := by
  cases cell with
  | markdown src m => rfl
  | raw src m => rfl
  | code src outs ec m => exact processOutputs_embed outs _ adn c c2

/-- With embed_images=true, rendering all cells performs no writes, keeps
the counter, and its Markdown is counter-independent. -/
theorem processCells_embed (cells : List Cell) (md : String)
    (adn : Option String) (c c2 : Nat) :
    processCells md cells adn c ⟨true⟩ =
      (Except.map (fun p => (p.1, c)) (processCells md cells adn c2 ⟨true⟩).1, []) := by
  induction cells generalizing md with
  | nil => rfl
  | cons cell rest ih =>
    rw [processCells, processCells]
    rw [process_cell_embed cell md adn c c2, process_cell_embed cell md adn c2 c2]
    cases hr : (process_cell md cell adn c2 ⟨true⟩).1 with
    | error e => simp [Except.map]
    | ok p =>
      obtain ⟨md1, c1⟩ := p
      simp only [Except.map]
      rw [ih md1]
      cases hr2 : (processCells md1 rest adn c2 ⟨true⟩).1 with
      | error e => simp [Except.map]
      | ok q => simp [Except.map]

/-- C7: with embed_images=true, conversion creates no assets directory and
writes no files, the asset counter is never read or incremented (the result
is the same for every starting counter, and the final counter equals the
starting one), and conversion is deterministic (in this pure embedding,
converting the same notebook twice is definitionally the same computation). -/
theorem embed_no_side_effects :
    (∀ (nb : Notebook) (adn : Option String),
      (convertParsed nb adn ⟨true⟩).2.1 = false ∧
      (convertParsed nb adn ⟨true⟩).2.2 = [] ∧
      convertParsed nb adn ⟨true⟩ = convertParsed nb adn ⟨true⟩) ∧
    (∀ (md : String) (cells : List Cell) (adn : Option String) (c c2 : Nat),
      processCells md cells adn c ⟨true⟩ =
        (Except.map (fun p => (p.1, c)) (processCells md cells adn c2 ⟨true⟩).1, [])) := by
  refine ⟨fun nb adn => ?_, fun md cells adn c c2 => processCells_embed cells md adn c c2⟩
  rw [convertParsed, processCells_embed nb.cells "" adn 0 0]
  cases hr : (processCells "" nb.cells adn 0 ⟨true⟩).1 with
  | error e => simp [Except.map]
  | ok p => simp [Except.map]

/-- The asset writes produced from starting counter `c` are consecutively
numbered: the i-th write is named `output_<pad3 (c+i)>.<ext>` with an
extension matching one of the three image kinds. -/
def writesNumbered : Nat → List Write → Prop
  | _, [] => True
  | c, w :: ws =>
      (∃ ext, (ext = "png" ∨ ext = "jpg" ∨ ext = "svg") ∧
        w.1 = "output_" ++ pad3 c ++ "." ++ ext) ∧ writesNumbered (c + 1) ws

/-- Consecutive numbering is preserved under concatenation when the second
run starts where the first one ends. -/
theorem writesNumbered_append (c : Nat) (ws1 ws2 : List Write)
    (h1 : writesNumbered c ws1) (h2 : writesNumbered (c + ws1.length) ws2) :
    writesNumbered c (ws1 ++ ws2) := by
  induction ws1 generalizing c with
  | nil => simpa using h2
  | cons w ws ih =>
    obtain ⟨hw, hrest⟩ := h1
    refine ⟨hw, ih (c + 1) hrest ?_⟩
    have harith : c + 1 + ws.length = c + (w :: ws).length := by
      simp [List.length_cons]; omega
    rw [harith]
    exact h2

/-- The write/counter contract of one processing step: its writes are
consecutively numbered from the starting counter, and on success the final
counter advanced by exactly the number of writes. -/
def stepOk (c : Nat) (st : Except ConvError (String × Nat) × List Write) : Prop :=
  writesNumbered c st.2 ∧
  ∀ md2 c2, st.1 = Except.ok (md2, c2) → c2 = c + st.2.length

/-- A step that performs no write and keeps the counter satisfies the
contract. -/
theorem stepOk_pure (c : Nat) (md2 : String) :
    stepOk c (Except.ok (md2, c), []) := by
  refine ⟨trivial, fun md3 c3 h => ?_⟩
  cases h
  rfl

/-- A failing step that performed no write satisfies the contract. -/
theorem stepOk_err (c : Nat) (e : ConvError) :
    stepOk c (Except.error e, []) := by
  refine ⟨trivial, fun md3 c3 h => ?_⟩
  cases h

/-- A step that writes one correctly-named asset and increments the counter
once satisfies the contract. -/
theorem stepOk_write (c : Nat) (md2 fn : String) (bytes : List Nat) (ext : String)
    (hext : ext = "png" ∨ ext = "jpg" ∨ ext = "svg")
    (hfn : fn = "output_" ++ pad3 c ++ "." ++ ext) :
    stepOk c (Except.ok (md2, c + 1), [(fn, bytes)]) := by
  refine ⟨⟨⟨ext, hext, hfn⟩, trivial⟩, fun md3 c3 h => ?_⟩
  cases h
  rfl

/-- Rendering one data bundle obeys the write/counter contract. -/
theorem processData_writes (md : String) (data : List (String × Json))
    (adn : Option String) (c : Nat) (opts : ConvertOptions) :
    stepOk c (processData md data adn c opts) := by
  rw [processData]
  cases h1 : (jsonMapGet data "image/png").bind value_to_text with
  | some s =>
    cases hembed : opts.embed_images with
    | true => simpa [hembed] using stepOk_pure c _
    | false =>
      cases hdec : base64Decode s with
      | none => simpa [hembed, hdec] using stepOk_err c _
      | some bytes =>
        cases adn <;>
          simpa [hembed, hdec] using stepOk_write c _ _ bytes "png" (Or.inl rfl)
            (by simp [String.append_assoc])
  | none =>
  cases h2 : (jsonMapGet data "image/jpeg").bind value_to_text with
  | some s =>
    cases hembed : opts.embed_images with
    | true => simpa [hembed] using stepOk_pure c _
    | false =>
      cases hdec : base64Decode s with
      | none => simpa [hembed, hdec] using stepOk_err c _
      | some bytes =>
        cases adn <;>
          simpa [hembed, hdec] using stepOk_write c _ _ bytes "jpg"
            (Or.inr (Or.inl rfl)) (by simp [String.append_assoc])
  | none =>
  cases h3 : (jsonMapGet data "image/svg+xml").bind value_to_text with
  | some s =>
    cases hembed : opts.embed_images with
    | true => simpa [hembed] using stepOk_pure c _
    | false =>
      cases adn <;>
        simpa [hembed] using stepOk_write c _ _ (strBytes s) "svg"
          (Or.inr (Or.inr rfl)) (by simp [String.append_assoc])
  | none =>
  cases h4 : (jsonMapGet data "text/markdown").bind value_to_text with
  | some s => exact stepOk_pure c _
  | none =>
  cases h5 : (jsonMapGet data "text/plain").bind value_to_text with
  | some s => exact stepOk_pure c _
  | none =>
  cases h6 : (jsonMapGet data "text/html").bind value_to_text with
  | some s => exact stepOk_pure c _
  | none => exact stepOk_pure c _

/-- Rendering one output obeys the write/counter contract. -/
theorem process_output_writes (md : String) (o : Output) (adn : Option String)
    (c : Nat) (opts : ConvertOptions) :
    stepOk c (process_output md o adn c opts) := by
  cases o with
  | stream n t => exact stepOk_pure c _
  | displayData data m => exact processData_writes md data adn c opts
  | executeResult data m ec => exact processData_writes md data adn c opts
  | error a b tb => exact stepOk_pure c _

/-- Sequencing two contract-satisfying steps (the second starting at the
first one's final counter) satisfies the contract for the concatenated
writes. -/
theorem stepOk_seq (c : Nat) (md1 : String) (c1 : Nat)
    (ws : List Write) (st : Except ConvError (String × Nat) × List Write)
    (h1 : stepOk c (Except.ok (md1, c1), ws)) (h2 : stepOk c1 st) :
    stepOk c (st.1, ws ++ st.2) := by
  have hc1 : c1 = c + ws.length := h1.2 md1 c1 rfl
  refine ⟨writesNumbered_append c ws st.2 h1.1 (by rw [← hc1]; exact h2.1), ?_⟩
  intro md2 c2 h
  have := h2.2 md2 c2 h
  simp only [List.length_append]
  omega

/-- Rendering a list of outputs obeys the write/counter contract. -/
theorem processOutputs_writes (outputs : List Output) (md : String)
    (adn : Option String) (c : Nat) (opts : ConvertOptions) :
    stepOk c (processOutputs md outputs adn c opts) := by
  induction outputs generalizing md c with
  | nil => exact stepOk_pure c _
  | cons o rest ih =>
    have h1 := process_output_writes md o adn c opts
    cases hpo : process_output md o adn c opts with
    | mk r ws =>
      rw [hpo] at h1
      rw [processOutputs, hpo]
      cases r with
      | error e => exact h1
      | ok p =>
        obtain ⟨md1, c1⟩ := p
        have h2 := ih md1 c1
        cases hpr : processOutputs md1 rest adn c1 opts with
        | mk r2 ws2 =>
          rw [hpr] at h2
          simp only [hpr]
          exact stepOk_seq c md1 c1 ws (r2, ws2) h1 h2

/-- Rendering one cell obeys the write/counter contract. -/
theorem process_cell_writes (cell : Cell) (md : String) (adn : Option String)
    (c : Nat) (opts : ConvertOptions) :
    stepOk c (process_cell md cell adn c opts) := by
  cases cell with
  | markdown src m => exact stepOk_pure c _
  | raw src m => exact stepOk_pure c _
  | code src outs ec m => exact processOutputs_writes outs _ adn c opts

/-- Rendering a list of cells obeys the write/counter contract: the counter
is threaded across cells, never reset. -/
theorem processCells_writes (cells : List Cell) (md : String)
    (adn : Option String) (c : Nat) (opts : ConvertOptions) :
    stepOk c (processCells md cells adn c opts) := by
  induction cells generalizing md c with
  | nil => exact stepOk_pure c _
  | cons cell rest ih =>
    have h1 := process_cell_writes cell md adn c opts
    cases hpc : process_cell md cell adn c opts with
    | mk r ws =>
      rw [hpc] at h1
      rw [processCells, hpc]
      cases r with
      | error e => exact h1
      | ok p =>
        obtain ⟨md1, c1⟩ := p
        have h2 := ih md1 c1
        cases hpr : processCells md1 rest adn c1 opts with
        | mk r2 ws2 =>
          rw [hpr] at h2
          simp only [hpr]
          exact stepOk_seq c md1 c1 ws (r2, ws2) h1 h2

/-- A concrete notebook with three image-producing outputs across two code
cells: two PNG outputs in the first cell, one SVG output in the second. -/
def nb3 : Notebook :=
  ⟨[Cell.code (MultilineString.single "a")
      [Output.displayData [("image/png", Json.str "QQ==")] none,
       Output.executeResult [("image/png", Json.str "")] none none] none none,
    Cell.code (MultilineString.single "b")
      [Output.displayData [("image/svg+xml", Json.str "<svg/>")] none] none none]⟩

/-- C4: with embed_images=false the asset counter starts at 0, advances by
exactly one per successful write, and is shared across all outputs of all
cells of one conversion (never reset per cell), so the writes of a whole
conversion are consecutively numbered; concretely, nb3 (three
image-producing outputs across two cells) yields files output_000.png,
output_001.png, output_002.svg with no gaps or resets. -/
theorem counter_monotonic :
    (∀ (cells : List Cell) (md : String) (adn : Option String) (c : Nat)
        (opts : ConvertOptions) (r : Except ConvError (String × Nat)) (ws : List Write),
      processCells md cells adn c opts = (r, ws) →
      writesNumbered c ws ∧
        ∀ md2 c2, r = Except.ok (md2, c2) → c2 = c + ws.length) ∧
    (∀ (nb : Notebook) (adn : Option String) (opts : ConvertOptions),
      (convertParsed nb adn opts).2.2 = (processCells "" nb.cells adn 0 opts).2) ∧
    (convertParsed nb3 (some "assets") ⟨false⟩).2.2.map Prod.fst =
      ["output_000.png", "output_001.png", "output_002.svg"] := by
  refine ⟨fun cells md adn c opts r ws h => ?_, fun nb adn opts => ?_, ?_⟩
  · have hs := processCells_writes cells md adn c opts
    rw [h] at hs
    exact hs
  · rw [convertParsed]
    cases hpr : processCells "" nb.cells adn 0 opts with
    | mk r ws => cases r <;> rfl
  · rfl

/-- Witness for C4: the write list of the concrete notebook nb3 is
consecutively numbered from counter 0. -/
theorem counter_monotonic_witness :
    writesNumbered 0 [("output_000.png", [65]), ("output_001.png", []),
      ("output_002.svg", strBytes "<svg/>")] :=
  (counter_monotonic.1 nb3.cells "" (some "assets") 0 ⟨false⟩ _ _ rfl).1
